import Mathlib

/-!
Verification of the `hbn_postprocessing` quality-control pipeline.

The Python sources (`hbn_postprocessing/{utils,file_count,html,jobs,motion,main}.py`)
are shallowly embedded: directory trees are explicit lists of named entries,
pandas tables are lists of records, machine floats are modelled as exact
rationals (`ℚ`), and code that can raise returns `Except PyError`.
-/

set_option maxRecDepth 8000

/-- Python exception kinds raised by the embedded code. -/
inductive PyError where
  | typeError
  | keyError
  | valueError
deriving DecidableEq, Repr

/-! ## Character and string helpers

All string processing is done on `List Char` (the data underlying `String`)
so that the definitions compute by plain structural recursion. -/

/-- The character class `[a-zA-Z\d]` of `motion.CONFOUNDS_PATTERN`
(file names are ASCII). -/
def isAlnumC (c : Char) : Bool := c.isAlpha || c.isDigit

/-- Strip the literal `pre` from the front of `s`; `none` when `s` does not
start with `pre`.  Used to model literal fragments of globs and regexes. -/
def dropPfx (pre s : List Char) : Option (List Char) :=
  if pre.isPrefixOf s then some (s.drop pre.length) else none

/-- The remainder of `s` after the first occurrence of the (non-empty)
`needle`, as in Python `s.partition(needle)[2]`; `none` when `needle` does
not occur in `s`. -/
def afterFirst (needle : List Char) : List Char → Option (List Char)
  | [] => none
  | c :: rest =>
    if needle.isPrefixOf (c :: rest) then some ((c :: rest).drop needle.length)
    else afterFirst needle rest

/-- Python `s.startswith(pre)`. -/
def strStartsWith (s pre : String) : Bool := pre.toList.isPrefixOf s.toList

/-- Python `s.split(sep)` for a one-character separator (the sources only
split on "-", "*" and "."). -/
def splitOnChar (sep : Char) : List Char → List (List Char)
  | [] => [[]]
  | c :: rest =>
    match splitOnChar sep rest with
    | [] => [[]]
    | g :: gs => if c == sep then [] :: g :: gs else (c :: g) :: gs

/-! ## Glob matching (`utils.glob_dir`)

`glob.glob` with the patterns appearing in the sources (`*` wildcards and
literal text only; `glob_dir` never uses `?` or brackets).  A pattern is
split at its `*`s; it matches a name iff the name starts with the first
literal segment, ends with the last one, and contains the middle segments in
order in between.  As in `glob.glob`, names starting with a dot are never
matched. -/

def globMid : List (List Char) → List Char → Bool
  | [], s => s.isEmpty
  | [last], s => last.isSuffixOf s
  | seg :: rest, s =>
    match afterFirst seg s with
    | none => false
    | some s1 => globMid rest s1

def globSegsMatch : List (List Char) → List Char → Bool
  | [], s => s.isEmpty
  | [seg], s => s == seg
  | seg :: rest, s =>
    match dropPfx seg s with
    | none => false
    | some s1 => globMid rest s1

/-- Does file name `name` match glob pattern `pat`? -/
def globMatch (pat name : String) : Bool :=
  !(strStartsWith name ".") && globSegsMatch (splitOnChar '*' pat.toList) name.toList

/-! ## pandas arithmetic helpers -/

/-- `Series.mean()` over the non-null values of a column: `none` (NaN) when
there are no values, otherwise the arithmetic mean. -/
def pdMean (vals : List ℚ) : Option ℚ :=
  if vals.isEmpty then none else some (vals.sum / vals.length)

/-- pandas `x == 0` on a possibly-missing numeric cell: a missing value (NaN)
compares `False`, never equal to `0`. -/
def pdEqZero : Option Nat → Bool
  | none => false
  | some n => n == 0

example : globMatch "*T1w.nii.gz*" "x_T1w.nii.gz" = true := by decide
example : globMatch "sub-*" "sub-ABC" = true := by decide
example : globMatch "sub-*" "nope-ABC" = false := by decide
example : globMatch "*" ".hidden" = false := by decide
example : globMatch "*.out*" "job1.out" = true := by decide
example : splitOnChar '-' "sub-ABC".toList = ["sub".toList, "ABC".toList] := by decide
example : afterFirst "lab ".toList "xx lab yy".toList = some "yy".toList := by decide

/-! ## Datatype presence detector (`file_count.py`)

A BIDS tree is modelled by its directory structure only as far as the code
inspects it: a list of top-level directories (`glob_dir(bids_path, "sub-*",
filter_=is_dir)` only ever returns directories), each with a list of
immediate sub-directories, each holding a list of file names. -/

/-- An immediate sub-directory of a subject directory and its file names. -/
structure DirNode where
  name : String
  files : List String
deriving DecidableEq, Repr

/-- A top-level directory of the BIDS root. -/
structure SubjNode where
  name : String
  subdirs : List DirNode
deriving DecidableEq, Repr

/-- `file_count.SearchSpec`. -/
structure SearchSpec where
  datatype : String
  img_type : String
  glob : String
deriving DecidableEq, Repr

/-- `SearchSpec.count_files`: glob the datatype directory's file names; a
non-empty result yields `("yes", count)`, an empty one `("no", 0)`. -/
def SearchSpec.count_files (spec : SearchSpec) (files : List String) : String × Nat :=
  let matching := files.filter (fun f => globMatch spec.glob f)
  if matching.isEmpty then ("no", 0) else ("yes", matching.length)

/-- `file_count.DATATYPE_SPECS` (a dict keyed by `datatype`). -/
def DATATYPE_SPECS : List SearchSpec :=
  [⟨"anat", "t1", "*T1w.nii.gz*"⟩,
   ⟨"func", "func", "*bold.nii.gz*"⟩,
   ⟨"fmap", "fmap", "*fMRI_epi.nii.gz*"⟩]

/-- One row of the presence table.  The Python code builds a dict per
subject; a datatype whose sub-folder is absent contributes no keys, which
pandas turns into missing (NaN) cells — modelled as `none` fields. -/
structure CountRow where
  participant_id : String
  t1 : Option String
  t1_files : Option Nat
  func : Option String
  func_files : Option Nat
  fmap : Option String
  fmap_files : Option Nat
deriving DecidableEq, Repr

/-- `sub_dict.update(...)` for the result of one spec's `count_files`,
routed to the record fields named by the spec's `img_type`. -/
def applySpec (row : CountRow) (img_type : String) (res : String × Nat) : CountRow :=
  if img_type == "t1" then { row with t1 := some res.1, t1_files := some res.2 }
  else if img_type == "func" then { row with func := some res.1, func_files := some res.2 }
  else if img_type == "fmap" then { row with fmap := some res.1, fmap_files := some res.2 }
  else row

/-- Look up a top-level directory by name (path existence on disk). -/
def findSubj (tree : List SubjNode) (name : String) : Option SubjNode :=
  tree.find? (fun d => d.name == name)

/-- `file_count.count_files(bids_dir, subj_id)`: list the immediate
sub-directories of `sub-<subj_id>` (`glob_dir(subj_dir, "*", is_dir)`; a
missing subject directory globs to nothing), and fold the known datatype
specs over them.  An unrecognized sub-folder name is skipped. -/
def count_files (tree : List SubjNode) (subj_id : String) : CountRow :=
  let content := ((findSubj tree ("sub-" ++ subj_id)).map
    (fun d => d.subdirs.filter (fun sd => globMatch "*" sd.name))).getD []
  content.foldl
    (fun row sd =>
      match DATATYPE_SPECS.find? (fun spec => spec.datatype == sd.name) with
      | none => row
      | some spec => applySpec row spec.img_type (spec.count_files sd.files))
    ⟨"sub-" ++ subj_id, none, none, none, none, none, none⟩

/-- `sub_dir.name.split("-")[1]` of `count_all_files`. -/
def subjIdOfDirName (name : String) : String :=
  String.mk (((splitOnChar '-' name.toList).drop 1).headD [])

/-- The rows of the presence table: one `count_files` row per top-level
directory matching `sub-*`. -/
def bids_rows (tree : List SubjNode) : List CountRow :=
  (tree.filter (fun d => globMatch "sub-*" d.name)).map
    (fun d => count_files tree (subjIdOfDirName d.name))

/-- `BIDS-count_exclude.csv` rows: pandas filter
`(df["t1_files"] == 0) | (df["fmap_files"] == 0)`.  A missing (NaN) count
compares unequal to `0`. -/
def bidsExclude (tree : List SubjNode) : List CountRow :=
  (bids_rows tree).filter (fun r => pdEqZero r.t1_files || pdEqZero r.fmap_files)

/-- `BIDS-count_include.csv` rows: `~df.index.isin(exclude_df.index)`. -/
def bidsIncluded (tree : List SubjNode) : List CountRow :=
  (bids_rows tree).filter
    (fun r => !(((bidsExclude tree).map (fun e => e.participant_id)).contains r.participant_id))

/-- Result of `file_count.count_all_files`: the full presence table and its
exclude/include breakdowns. -/
structure BidsCountResult where
  all : List CountRow
  exclude : List CountRow
  included : List CountRow
deriving DecidableEq, Repr

/-- `file_count.count_all_files(bids_dir, out_dir)`.  With no subject rows,
or with a mandatory count column entirely absent from the DataFrame,
pandas raises `KeyError` (`df["t1_files"]` / `df["fmap_files"]` /
`set_index("participant_id")` on an empty frame); otherwise the three
breakdowns are produced.  (The CSV writes happen in the order all,
exclude, include; the claims below only concern the table contents.) -/
def count_all_files (tree : List SubjNode) : Except PyError BidsCountResult :=
  let rows := bids_rows tree
  if rows.isEmpty || rows.all (fun r => r.t1_files.isNone)
      || rows.all (fun r => r.fmap_files.isNone) then
    .error .keyError
  else
    .ok ⟨rows, bidsExclude tree, bidsIncluded tree⟩

/-- File names written by `count_all_files`. -/
def count_all_files_writeNames : List String :=
  ["BIDS-count_all.csv", "BIDS-count_exclude.csv", "BIDS-count_include.csv"]

/-! ## Completion page checker (`html.py`) -/

/-- `Path.stem`: the file name without its final extension. -/
def stemOf (name : String) : String :=
  let parts := splitOnChar '.' name.toList
  match parts with
  | [] => name
  | [_] => name
  | _ => String.mk (List.intercalate ['.'] (parts.dropLast))

/-- `html.check_html(fmriprep_out_dir, participants_path, out_dir)`:
flag each registered participant id with "yes"/"no" according to whether
some `*.html*` file in the fmriprep output directory has that id as its
stem. -/
def check_html (fmriprepEntries : List String) (participants : List String) :
    List (String × String) :=
  let html_files := (fmriprepEntries.filter (fun f => globMatch "*.html*" f)).map stemOf
  participants.map (fun p => (p, if html_files.contains p then "yes" else "no"))

/-- File names written by `check_html`. -/
def check_html_writeNames : List String :=
  ["html-check_all.csv", "html-check_no.csv", "html-check_yes.csv"]

example : (count_files [⟨"sub-A", [⟨"fmap", ["x_fMRI_epi.nii.gz"]⟩]⟩] "A").t1_files = none := by decide
example : (count_files [⟨"sub-A", [⟨"anat", []⟩]⟩] "A").t1_files = some 0 := by decide
example : stemOf "sub-X.html" = "sub-X" := by decide

/-! ## Job-log completion estimator (`jobs.py`) -/

/-- A job log file: name, full text content, and size in bytes
(`file_.stat().st_size`). -/
structure JobFile where
  name : String
  content : String
  size : Nat
deriving DecidableEq, Repr

/-- The dict returned by `jobs._process_job_file`. -/
structure JobRec where
  name : String
  p_id : String
  size_kb : ℚ
deriving DecidableEq, Repr

/-- `out_content.partition("participant_label ")[2][0:12]`: the first 12
characters after the first occurrence of the marker (empty when the marker
does not occur). -/
def extractedSubjId (content : String) : String :=
  String.mk (((afterFirst "participant_label ".toList content.toList).getD []).take 12)

/-- `jobs._process_job_file`: candidate subject id from the log text plus
the log size in kilobytes (`st_size / 1000`). -/
def _process_job_file (f : JobFile) : JobRec :=
  ⟨f.name, extractedSubjId f.content, (f.size : ℚ) / 1000⟩

/-- One row of the per-file size table (`size_df`). -/
structure SizeRow where
  file_name : String
  participant_id : String
  size_kb : ℚ
deriving DecidableEq, Repr

/-- `size_df`: process every `*.out*` file, prefix the extracted id with
`sub-`, and keep only rows whose participant id starts with `sub-NDA`. -/
def size_df (jobFiles : List JobFile) : List SizeRow :=
  (((jobFiles.filter (fun f => globMatch "*.out*" f.name)).map _process_job_file).map
      (fun r => SizeRow.mk r.name ("sub-" ++ r.p_id) r.size_kb)).filter
    (fun r => strStartsWith r.participant_id "sub-NDA")

/-- `jobs.STARTED_THRESHOLD_KB`. -/
def STARTED_THRESHOLD_KB : ℚ := 10

/-- `jobs.COMPLETED_THRESHOLD_KB`. -/
def COMPLETED_THRESHOLD_KB : ℚ := 4000

/-- The status lambda of `jobs.check_jobs`: classify a (maximum) size in KB
into one of three statuses. -/
def statusOfSize (size_kb : ℚ) : String :=
  if size_kb < STARTED_THRESHOLD_KB then "not started"
  else if size_kb < COMPLETED_THRESHOLD_KB then "partial/error"
  else "likely complete"

/-- The distinct participant ids of the size table, in first-occurrence
order.  (pandas `groupby` additionally sorts the group keys; only row order,
which no claim depends on, is affected.) -/
def groupIds (rows : List SizeRow) : List String :=
  rows.foldl
    (fun acc r => if acc.contains r.participant_id then acc else acc ++ [r.participant_id])
    []

/-- `groupby("participant_id").max()` applied to the `size_kb` column. -/
def maxSizeFor (rows : List SizeRow) (id : String) : ℚ :=
  match (rows.filter (fun r => r.participant_id == id)).map (fun r => r.size_kb) with
  | [] => 0
  | q :: qs => qs.foldl max q

/-- One row of the grouped job table (`max_size`): the per-subject maximum
log size and the derived status.  (The grouped `file_name` column, also
maximized by pandas, is carried nowhere downstream and is omitted.) -/
structure JobRow where
  participant_id : String
  size_kb : ℚ
  status : String
deriving DecidableEq, Repr

/-- The three tables written by `jobs.check_jobs`. -/
structure JobsResult where
  allRows : List JobRow
  incomp : List JobRow
  comp : List JobRow
deriving DecidableEq, Repr

/-- `jobs.check_jobs(jobs_dir, out_dir)`.  Note the incomplete breakdown
filters on the literal `"likely_complete"` (with an underscore) exactly as
the source does, while statuses are spelled with a space. -/
def check_jobs (jobFiles : List JobFile) : JobsResult :=
  let rows := size_df jobFiles
  let max_size : List JobRow :=
    (groupIds rows).map (fun id =>
      let m := maxSizeFor rows id
      ⟨id, m, statusOfSize m⟩)
  ⟨max_size,
   max_size.filter (fun r => !(r.status == "likely_complete")),
   max_size.filter (fun r => r.status == "likely complete")⟩

/-- File names written by `check_jobs`. -/
def check_jobs_writeNames : List String :=
  ["out-size_all.csv", "out-size_incomp.csv", "out-size_comp.csv"]

example : extractedSubjId "cmd --participant_label sub-NDAAB1234CD --x" = "sub-NDAAB123" := by decide
example : statusOfSize 5 = "not started" := by decide
example : statusOfSize 10 = "partial/error" := by decide
example : statusOfSize 4000 = "likely complete" := by decide

/-! ## Motion outlier detector (`motion.py`)

`motion.CONFOUNDS_PATTERN` is

  sub-([a-zA-Z\d]+)_task-([a-zA-Z\d]+)(?:_run-(\d+))?_desc-([a-zA-Z\d]+)_([a-zA-Z\d]+).tsv

applied with `re.match` (anchored at the start of the name only; the final
`.` is an unescaped any-character).  Because the character classes exclude
`_` and `-`, each group is forced to be the maximal alphanumeric run before
its following literal, and Python's complete backtracking search succeeds
iff some decomposition of a prefix of the name fits — which the functions
below compute directly. -/

/-- The named groups of `CONFOUNDS_PATTERN` that the code consumes
(description and suffix are validated but unused). -/
structure ConfoundGroups where
  subject : String
  task : String
  run : Option String
deriving DecidableEq, Repr

/-- Is the list headed by one arbitrary character (the unescaped `.`)
followed by the literal `tsv`? -/
def dotTsvHere : List Char → Bool
  | [] => false
  | _ :: rest => "tsv".toList.isPrefixOf rest

/-- After at least one suffix character has been consumed: succeed if the
remaining text matches `.tsv` here, or extend the `[a-zA-Z\d]+` suffix. -/
def suffixTsvAux : List Char → Bool
  | [] => false
  | c :: rest => dotTsvHere (c :: rest) || (isAlnumC c && suffixTsvAux rest)

/-- `([a-zA-Z\d]+).tsv` as a prefix of the given text. -/
def suffixDotTsv : List Char → Bool
  | [] => false
  | c :: rest => isAlnumC c && suffixTsvAux rest

/-- The optional `(?:_run-(\d+))?` group: taken exactly when the literal
`_run-` followed by at least one digit is present (the following `_desc-`
cannot begin with `_run-`, so no further backtracking arises). -/
def matchOptionalRun (s : List Char) : Option (Option (List Char) × List Char) :=
  match dropPfx "_run-".toList s with
  | some r =>
    let (digits, r2) := r.span Char.isDigit
    if digits.isEmpty then none else some (some digits, r2)
  | none => some (none, s)

/-- `re.match(CONFOUNDS_PATTERN, name)`: the parsed groups, or `none` when
the name does not match. -/
def confoundsMatch (name : String) : Option ConfoundGroups := do
  let s0 ← dropPfx "sub-".toList name.toList
  let (subj, s1) := s0.span isAlnumC
  if subj.isEmpty then failure
  let s2 ← dropPfx "_task-".toList s1
  let (task, s3) := s2.span isAlnumC
  if task.isEmpty then failure
  let runPair ← matchOptionalRun s3
  let s5 ← dropPfx "_desc-".toList runPair.2
  let (desc, s6) := s5.span isAlnumC
  if desc.isEmpty then failure
  let s7 ← dropPfx "_".toList s6
  if !suffixDotTsv s7 then failure
  pure ⟨String.mk subj, String.mk task, runPair.1.map String.mk⟩

/-- A confound file: its name and its `framewise_displacement` column
(data rows below the header; `none` cells are n/a values). -/
structure Tsv where
  name : String
  fd : List (Option ℚ)
deriving DecidableEq, Repr

/-- A subject directory under the root passed to `exclude_by_motion`, with
the `*.tsv*` candidates of its `func` sub-directory (empty when there is no
`func` directory: the glob then returns nothing). -/
structure MotionSubjDir where
  name : String
  funcTsvs : List Tsv
deriving DecidableEq, Repr

/-- One row of the displacement table: the subject directory name and an
ordered task(+run) → mean-displacement mapping (a Python dict). -/
structure MotionRow where
  id : String
  cells : List (String × Option ℚ)
deriving DecidableEq, Repr

/-- Python dict assignment `d[k] = v`: overwrite in place, or append. -/
def assocSet (l : List (String × Option ℚ)) (k : String) (v : Option ℚ) :
    List (String × Option ℚ) :=
  if l.any (fun p => p.1 == k) then l.map (fun p => if p.1 == k then (k, v) else p)
  else l ++ [(k, v)]

/-- The loop body of `get_framewise_displacement` over the globbed tsvs:
a name that fails `CONFOUNDS_PATTERN` raises `ValueError`; otherwise the
task(+run) key is set to the mean of the `framewise_displacement` column
with its first row dropped (`tail(-1)`), skipping n/a cells. -/
def fdFold : List Tsv → List (String × Option ℚ) → Except PyError (List (String × Option ℚ))
  | [], acc => .ok acc
  | t :: rest, acc =>
    match confoundsMatch t.name with
    | none => .error .valueError
    | some g =>
      let task_run := g.task ++ ((g.run.map (fun r => "_run-" ++ r)).getD "")
      fdFold rest (assocSet acc task_run (pdMean ((t.fd.drop 1).filterMap id)))

/-- `motion.get_framewise_displacement(subj_dir)`. -/
def get_framewise_displacement (d : MotionSubjDir) : Except PyError MotionRow :=
  match fdFold (d.funcTsvs.filter (fun t => globMatch "*.tsv*" t.name)) [] with
  | .error e => .error e
  | .ok cells => .ok ⟨d.name, cells⟩

/-- List-valued `mapM` for `Except`, evaluating left to right and
propagating the first raised error — the list comprehension that builds
`displacement_df`. -/
def exceptMapList (f : α → Except PyError β) : List α → Except PyError (List β)
  | [] => .ok []
  | a :: l =>
    match f a with
    | .error e => .error e
    | .ok b =>
      match exceptMapList f l with
      | .error e => .error e
      | .ok bs => .ok (b :: bs)

/-- The cell of a displacement row for a task column: a key absent from the
subject's dict and a stored n/a both read back as NaN (`none`). -/
def cellOf (r : MotionRow) (c : String) : Option ℚ :=
  match r.cells.find? (fun p => p.1 == c) with
  | some p => p.2
  | none => none

/-- The task columns of the displacement table (`displacement_df.columns`
minus `id`), in first-appearance order. -/
def colsOf (rows : List MotionRow) : List String :=
  rows.foldl
    (fun acc r => acc ++ ((r.cells.map (fun p => p.1)).filter (fun c => !acc.contains c)))
    []

/-- The mean of a task column over its non-null cells
(`displacement_df.iloc[:, 1:].mean(axis=0)`). -/
def columnMean (rows : List MotionRow) (c : String) : Option ℚ :=
  pdMean (rows.filterMap (fun r => cellOf r c))

/-- `group_fds = displacement_df.iloc[:, 1:].mean(axis=0)`. -/
def group_fds (rows : List MotionRow) (c : String) : Option ℚ := columnMean rows c

/-- `group_sds = displacement_df.iloc[:, 1:].mean(axis=0)` — the source
computes the "spread" with the same mean formula, on the line below. -/
def group_sds (rows : List MotionRow) (c : String) : Option ℚ := columnMean rows c

/-- `upper_lims = group_fds + (2 * group_sds)` (NaN-propagating). -/
def upper_lims (rows : List MotionRow) (c : String) : Option ℚ :=
  match group_fds rows c, group_sds rows c with
  | some m, some s => some (m + 2 * s)
  | _, _ => none

/-- `displacement_df[task_run] > upper_lims[task_run]` for one cell: a
pandas comparison involving NaN on either side evaluates to the boolean
`False`, so the produced column is plain `bool`. -/
def outlierFlag (v lim : Option ℚ) : Bool :=
  match v, lim with
  | some x, some l => decide (x > l)
  | _, _ => false

/-- The `<task_run>_is_outlier` columns of one subject's row, in the order
the tasks are iterated. -/
def rowFlagEntries (rows : List MotionRow) (order : List String) (r : MotionRow) :
    List (String × Bool) :=
  order.map (fun c => (c ++ "_is_outlier", outlierFlag (cellOf r c) (upper_lims rows c)))

/-- The final motion table: `id` plus one boolean `_is_outlier` column per
task, the original task columns having been dropped.  `order` is the
iteration order of `set(displacement_df.columns) - {"id"}`: some
permutation of the task columns, chosen by the interpreter's hash
randomization, not by the input tree. -/
def motionFlagTable (rows : List MotionRow) (order : List String) :
    List (String × List (String × Bool)) :=
  rows.map (fun r => (r.id, rowFlagEntries rows order r))

/-- Python `str(bool)` as rendered by `to_csv`. -/
def boolPy : Bool → String
  | true => "True"
  | false => "False"

/-- `to_csv(..., sep=",", index=False)` for the motion table. -/
def motionCsv (order : List String) (tbl : List (String × List (String × Bool))) : String :=
  "id" ++ String.join (order.map (fun c => "," ++ c ++ "_is_outlier")) ++ "\n"
    ++ String.join (tbl.map (fun row =>
        row.1 ++ String.join (row.2.map (fun p => "," ++ boolPy p.2)) ++ "\n"))

/-- `motion.exclude_by_motion(bids_dir, out_dir)`: build the displacement
table over the `sub*` directories (any file name failing the confounds
pattern raises, and nothing is written), compute the group bounds, replace
each task column by its outlier flags, and write the single output CSV. -/
def exclude_by_motion (tree : List MotionSubjDir) (order : List String) :
    Except PyError (List (String × String)) :=
  match exceptMapList get_framewise_displacement
      (tree.filter (fun d => globMatch "sub*" d.name)) with
  | .error e => .error e
  | .ok rows => .ok [("motion-outliers_all.csv", motionCsv order (motionFlagTable rows order))]

/-- File names written by `exclude_by_motion`. -/
def exclude_by_motion_writeNames : List String := ["motion-outliers_all.csv"]

/-- The multiset of (task column, subject, flag) cells of the motion table;
the table determines it and it is insensitive to column order. -/
def motionCells (rows : List MotionRow) (order : List String) :
    List (String × String × Bool) :=
  order.flatMap (fun c =>
    rows.map (fun r => (c, r.id, outlierFlag (cellOf r c) (upper_lims rows c))))

example : confoundsMatch "sub-A_task-rest_desc-confounds_timeseries.tsv"
    = some ⟨"A", "rest", none⟩ := by decide
example : confoundsMatch "sub-A_task-rest_run-2_desc-confounds_timeseries.tsv"
    = some ⟨"A", "rest", some "2"⟩ := by decide
example : confoundsMatch "bad.tsv" = none := by decide
example : confoundsMatch "sub-A_task-rest_desc-confounds.tsv" = none := by decide

/-! ## Orchestrator (`main.py`)

`main()` parses the four directory arguments (plus the optional
`--subject_list`, whose lines are read into `subjects`), then runs the four
components in sequence.  Its first call is

    count_all_files(args.bids_dir, args.out_dir, subjects)

but `file_count.count_all_files` is defined with exactly two parameters, so
CPython raises `TypeError` at the call site, before the callee body runs. -/

/-- The file-system state the pipeline reads: each component's view of its
input directory. -/
structure PipelineInput where
  bidsTree : List SubjNode
  participants : List String
  fmriprepEntries : List String
  fmriprepSubjDirs : List MotionSubjDir
  jobFiles : List JobFile
deriving Repr

/-- Parameter list of `file_count.count_all_files` (file_count.py). -/
def count_all_files_params : List String := ["bids_dir", "out_dir"]

/-- Positional argument expressions `main` passes to `count_all_files`
(main.py). -/
def main_count_all_files_args : List String := ["args.bids_dir", "args.out_dir", "subjects"]

/-- A Python positional call binds iff the argument count equals the
parameter count (the callee has no defaults or varargs); otherwise the call
raises `TypeError`. -/
def pyArityOk (params args : List String) : Bool := params.length == args.length

/-- All file names the four component writers can produce. -/
def pipelineWriteNames : List String :=
  count_all_files_writeNames ++ check_html_writeNames
    ++ check_jobs_writeNames ++ exclude_by_motion_writeNames

/-- `main.main()`, after argument parsing and (when given) reading the
subject-list file into `subject_list`.  `order` is the interpreter-chosen
task-column iteration order used by the motion stage.  On success it
returns the names of all files written, in write order; an uncaught Python
exception is an `error` result with nothing further written. -/
def mainRun (inp : PipelineInput) (subject_list : Option (List String))
    (order : List String) : Except PyError (List String) :=
  if pyArityOk count_all_files_params main_count_all_files_args then
    match count_all_files inp.bidsTree with
    | .error e => .error e
    | .ok _ =>
      let _ := check_html inp.fmriprepEntries inp.participants
      let _ := check_jobs inp.jobFiles
      let _ := subject_list
      match exclude_by_motion inp.fmriprepSubjDirs order with
      | .error e => .error e
      | .ok _ => .ok pipelineWriteNames
  else .error .typeError

/-! ## Claims -/

/-- A populated pipeline input used to exhibit a concrete full run. -/
def c1Input : PipelineInput :=
  { bidsTree := [⟨"sub-X1", [⟨"anat", ["a_T1w.nii.gz"]⟩, ⟨"fmap", ["b_fMRI_epi.nii.gz"]⟩]⟩],
    participants := ["sub-X1"],
    fmriprepEntries := ["sub-X1.html"],
    fmriprepSubjDirs :=
      [⟨"sub-X1", [⟨"sub-X1_task-rest_desc-confounds_timeseries.tsv", [none, some 1]⟩]⟩],
    jobFiles := [⟨"1.out", "participant_label NDAX10000001X", 5000⟩] }

/-- C1 (counterexample): on a well-formed concrete input, a full pipeline
run produces no outer-joined overall summary table — it produces nothing at
all, aborting with `TypeError` at its first component call. -/
theorem c1_counterexample :
    mainRun c1Input none ["rest"] = Except.error PyError.typeError := rfl

/-- C1 (amended): no overall outer-joined summary table is produced by a
pipeline run: every invocation of `main` fails with `TypeError` before
writing anything, and the four component writers only ever produce the ten
per-component breakdown files — the code contains no outer-join step and no
overall output file. -/
theorem c1_no_overall_summary_table :
    (∀ (inp : PipelineInput) (sl : Option (List String)) (ord : List String),
      (mainRun inp sl ord).isOk = false) ∧
    pipelineWriteNames =
      ["BIDS-count_all.csv", "BIDS-count_exclude.csv", "BIDS-count_include.csv",
       "html-check_all.csv", "html-check_no.csv", "html-check_yes.csv",
       "out-size_all.csv", "out-size_incomp.csv", "out-size_comp.csv",
       "motion-outliers_all.csv"] :=
  ⟨fun _ _ _ => rfl, rfl⟩

/-- C2: `main` passes three positional arguments to `count_all_files`,
which is defined with two parameters, so every invocation of the entry
point — with or without a subject list, on any input state — raises
`TypeError` before any output is written. -/
theorem c2_main_arity_type_error :
    count_all_files_params.length = 2 ∧
    main_count_all_files_args.length = 3 ∧
    pyArityOk count_all_files_params main_count_all_files_args = false ∧
    ∀ (inp : PipelineInput) (sl : Option (List String)) (ord : List String),
      mainRun inp sl ord = Except.error PyError.typeError :=
  ⟨rfl, rfl, rfl, fun _ _ _ => rfl⟩

/-- The displacement table of the C4 scenario: five subjects with mean
displacements [1, 1, 1, 1, 10] for task `t`. -/
def c4Rows : List MotionRow :=
  [⟨"sub-01", [("t", some 1)]⟩, ⟨"sub-02", [("t", some 1)]⟩, ⟨"sub-03", [("t", some 1)]⟩,
   ⟨"sub-04", [("t", some 1)]⟩, ⟨"sub-05", [("t", some 10)]⟩]

/-- C4: the motion rule computes the group mean and the spread proxy with
the same mean formula, takes `mean + 2 * spread proxy` as the upper bound,
and flags exactly strict exceedance: on [1,1,1,1,10] the mean is 14/5 = 2.8,
the bound 42/5 = 8.4, the subject at 10 is flagged `true` and the four
subjects at 1 are flagged `false`. -/
theorem c4_outlier_threshold_rule :
    group_fds c4Rows "t" = some (14/5) ∧
    group_sds c4Rows "t" = group_fds c4Rows "t" ∧
    upper_lims c4Rows "t" = some ((14:ℚ)/5 + 2 * ((14:ℚ)/5)) ∧
    upper_lims c4Rows "t" = some (42/5) ∧
    motionFlagTable c4Rows ["t"] =
      [("sub-01", [("t_is_outlier", false)]), ("sub-02", [("t_is_outlier", false)]),
       ("sub-03", [("t_is_outlier", false)]), ("sub-04", [("t_is_outlier", false)]),
       ("sub-05", [("t_is_outlier", true)])] ∧
    (∀ (v lim : ℚ), outlierFlag (some v) (some lim) = decide (v > lim)) := by
  have h : c4Rows.filterMap (fun r => cellOf r "t") = [1, 1, 1, 1, 10] := by decide
  have hmean : group_fds c4Rows "t" = some (14/5) := by
    unfold group_fds columnMean
    rw [h]
    norm_num [pdMean]
  have hu : upper_lims c4Rows "t" = some (42/5) := by
    unfold upper_lims group_fds group_sds columnMean
    rw [h]
    norm_num [pdMean]
  refine ⟨hmean, rfl, ?_, hu, ?_, fun _ _ => rfl⟩
  · unfold upper_lims group_fds group_sds columnMean
    rw [h]
    norm_num [pdMean]
  · simp only [motionFlagTable, rowFlagEntries, List.map_cons, List.map_nil]
    rw [hu]
    simp only [c4Rows, List.map_cons, List.map_nil]
    norm_num [cellOf, outlierFlag]
    decide

/-- A jobs directory with one log whose subject is likely complete
(5 000 000 bytes = 5000 KB ≥ 4000 KB). -/
def jobsBugFiles : List JobFile :=
  [⟨"job1.out", "cmd --participant_label NDAAB1234CDE --more", 5000000⟩]

/-- C5 (code bug): `check_jobs` filters the incomplete breakdown with
`status != "likely_complete"` (underscore) although the statuses it assigns
are spelled with a space, so the filter never excludes anything: a
likely-complete subject lands in both the incomplete and the complete
breakdown, and the partition property `incomplete = all − complete` fails
(here `all − complete = []` but the incomplete table is the whole table). -/
theorem c5_incomplete_filter_typo :
    (check_jobs jobsBugFiles).allRows = [⟨"sub-NDAAB1234CDE", 5000, "likely complete"⟩] ∧
    (check_jobs jobsBugFiles).comp = [⟨"sub-NDAAB1234CDE", 5000, "likely complete"⟩] ∧
    (check_jobs jobsBugFiles).incomp = [⟨"sub-NDAAB1234CDE", 5000, "likely complete"⟩] ∧
    ((check_jobs jobsBugFiles).incomp == []) = false := by
  have h0 : size_df jobsBugFiles
      = [⟨"job1.out", "sub-NDAAB1234CDE", ((5000000 : ℕ) : ℚ) / 1000⟩] := rfl
  have hq : ((5000000 : ℕ) : ℚ) / 1000 = 5000 := by norm_num
  rw [hq] at h0
  have h2 : check_jobs jobsBugFiles
      = ⟨[⟨"sub-NDAAB1234CDE", 5000, "likely complete"⟩],
         [⟨"sub-NDAAB1234CDE", 5000, "likely complete"⟩],
         [⟨"sub-NDAAB1234CDE", 5000, "likely complete"⟩]⟩ := by
    simp only [check_jobs, h0]
    decide
  rw [h2]
  exact ⟨rfl, rfl, rfl, rfl⟩

/-- The job log of the spec's end-to-end scenario: content containing
`participant_label sub-NDAAB1234CD...`, size 5000 bytes. -/
def c7JobFile : JobFile := ⟨"job2.out", "cmd --participant_label sub-NDAAB1234CD --more", 5000⟩

/-- C7 (counterexample): the 12 characters immediately following the marker
are `sub-NDAAB123`, not the spec's 14-character `sub-NDAAB1234C`. -/
theorem c7_counterexample :
    (_process_job_file c7JobFile).p_id = "sub-NDAAB123" ∧
    (("sub-NDAAB123" : String) == "sub-NDAAB1234C") = false := by decide

/-- C7 (amended): the extractor takes exactly the 12 characters after the
marker — here `sub-NDAAB123` — and records size 5 KB; a 5 KB subject would
classify as "not started", but this candidate fails the expected-prefix
filter (`sub-` + candidate does not start with `sub-NDA`), so the subject
is dropped from the job table altogether. -/
theorem c7_extraction_amended :
    (_process_job_file c7JobFile).p_id = "sub-NDAAB123" ∧
    (_process_job_file c7JobFile).size_kb = 5 ∧
    statusOfSize 5 = "not started" ∧
    strStartsWith ("sub-" ++ (_process_job_file c7JobFile).p_id) "sub-NDA" = false ∧
    (check_jobs [c7JobFile]).allRows = [] := by
  have h0 : _process_job_file c7JobFile
      = ⟨"job2.out", "sub-NDAAB123", ((5000 : ℕ) : ℚ) / 1000⟩ := rfl
  have hq : ((5000 : ℕ) : ℚ) / 1000 = 5 := by norm_num
  rw [hq] at h0
  refine ⟨by rw [h0], by rw [h0], by decide, by decide, ?_⟩
  have h1 : size_df [c7JobFile] = [] := rfl
  simp only [check_jobs, h1]
  decide

/-- C6: job-log status is a total three-way classification of the
per-subject maximum size in KB with inclusive-exclusive boundaries: below
the started threshold "not started"; from the started threshold (inclusive)
up to the completed threshold (exclusive) "partial/error"; from the
completed threshold (inclusive) on "likely complete".  The three conditions
are mutually exclusive and exhaustive, so every subject gets exactly one
status; the boundary sizes classify as the claim states; and every row of
the grouped job table carries exactly the status of its (maximum) size. -/
theorem c6_status_classification :
    (∀ size_kb : ℚ,
      (statusOfSize size_kb = "not started" ↔ size_kb < STARTED_THRESHOLD_KB) ∧
      (statusOfSize size_kb = "partial/error" ↔
        (STARTED_THRESHOLD_KB ≤ size_kb ∧ size_kb < COMPLETED_THRESHOLD_KB)) ∧
      (statusOfSize size_kb = "likely complete" ↔ COMPLETED_THRESHOLD_KB ≤ size_kb)) ∧
    statusOfSize STARTED_THRESHOLD_KB = "partial/error" ∧
    statusOfSize COMPLETED_THRESHOLD_KB = "likely complete" ∧
    (∀ jobFiles : List JobFile,
      ((check_jobs jobFiles).allRows.all
        (fun r => r.status == statusOfSize r.size_kb)) = true) := by
  refine ⟨?_, by decide, by decide, ?_⟩
  · intro s
    simp only [statusOfSize, STARTED_THRESHOLD_KB, COMPLETED_THRESHOLD_KB]
    split_ifs with h1 h2
    · exact ⟨⟨fun _ => h1, fun _ => rfl⟩,
        ⟨fun h => absurd h (by decide), fun hc => absurd h1 (not_lt.mpr hc.1)⟩,
        ⟨fun h => absurd h (by decide), fun hc => absurd h1 (by linarith)⟩⟩
    · exact ⟨⟨fun h => absurd h (by decide), fun hlt => absurd hlt h1⟩,
        ⟨fun _ => ⟨not_lt.mp h1, h2⟩, fun _ => rfl⟩,
        ⟨fun h => absurd h (by decide), fun hc => absurd h2 (by linarith)⟩⟩
    · exact ⟨⟨fun h => absurd h (by decide), fun hlt => absurd hlt h1⟩,
        ⟨fun h => absurd h (by decide), fun hc => absurd hc.2 h2⟩,
        ⟨fun _ => not_lt.mp h2, fun _ => rfl⟩⟩
  · intro jfs
    simp only [check_jobs]
    rw [List.all_eq_true]
    intro r hr
    rw [List.mem_map] at hr
    obtain ⟨id, _, rfl⟩ := hr
    simp

/-- The displacement table of the C3 scenario: two subjects with values for
task `t` and one subject (`sub-C`) with no value at all. -/
def c3Rows : List MotionRow :=
  [⟨"sub-A", [("t", some 10)]⟩, ⟨"sub-B", [("t", some 1)]⟩, ⟨"sub-C", []⟩]

/-- Look up one subject's flag for one column in the motion table. -/
def flagsOf (tbl : List (String × List (String × Bool))) (id col : String) : Option Bool :=
  (tbl.find? (fun p => p.1 == id)).bind
    (fun p => (p.2.find? (fun q => q.1 == col)).map (fun q => q.2))

/-- C3 (counterexample): `sub-C` has no mean-displacement value for task
`t`, yet its is-outlier entry is the boolean `false` — present, not null,
and identical to the entry of the genuinely non-outlying `sub-B`
(pandas `NaN > bound` evaluates to `False`). -/
theorem c3_counterexample :
    cellOf ⟨"sub-C", []⟩ "t" = none ∧
    flagsOf (motionFlagTable c3Rows ["t"]) "sub-C" "t_is_outlier" = some false ∧
    (flagsOf (motionFlagTable c3Rows ["t"]) "sub-C" "t_is_outlier").isNone = false ∧
    flagsOf (motionFlagTable c3Rows ["t"]) "sub-B" "t_is_outlier" = some false := by
  have h : c3Rows.filterMap (fun r => cellOf r "t") = [10, 1] := by decide
  have hu : upper_lims c3Rows "t" = some (33/2) := by
    unfold upper_lims group_fds group_sds columnMean
    rw [h]
    norm_num [pdMean]
  have htbl : motionFlagTable c3Rows ["t"]
      = [("sub-A", [("t_is_outlier", false)]), ("sub-B", [("t_is_outlier", false)]),
         ("sub-C", [("t_is_outlier", false)])] := by
    simp only [motionFlagTable, rowFlagEntries, List.map_cons, List.map_nil]
    rw [hu]
    simp only [c3Rows, List.map_cons, List.map_nil]
    norm_num [cellOf, outlierFlag]
    decide
  rw [htbl]
  exact ⟨by decide, by decide, by decide, by decide⟩

/-- C3 (amended): a subject with no mean-displacement value for a task
still receives a verdict in the motion table, and it is the boolean
`false` — indistinguishable from "not an outlier" — because the pandas
comparison of a missing value against the bound evaluates to `False`. -/
theorem c3_missing_value_flag_false (rows : List MotionRow) (order : List String)
    (r : MotionRow) (c : String) (hr : r ∈ rows) (hc : c ∈ order)
    (hmiss : cellOf r c = none) :
    (r.id, rowFlagEntries rows order r) ∈ motionFlagTable rows order ∧
    (c ++ "_is_outlier", false) ∈ rowFlagEntries rows order r := by
  constructor
  · exact List.mem_map.mpr ⟨r, hr, rfl⟩
  · refine List.mem_map.mpr ⟨c, hc, ?_⟩
    rw [hmiss]
    cases upper_lims rows c <;> rfl

/-- Witness for `c3_missing_value_flag_false` at the concrete C3 table. -/
theorem c3_missing_value_flag_false_witness :
    ((⟨"sub-C", []⟩ : MotionRow) ∈ c3Rows ∧ "t" ∈ ["t"] ∧
      cellOf ⟨"sub-C", []⟩ "t" = none) ∧
    ("t" ++ "_is_outlier", false) ∈ rowFlagEntries c3Rows ["t"] ⟨"sub-C", []⟩ :=
  ⟨⟨by decide, by decide, by decide⟩,
   (c3_missing_value_flag_false c3Rows ["t"] ⟨"sub-C", []⟩ "t"
     (by decide) (by decide) (by decide)).2⟩

lemma fdFold_error_of_bad (l : List Tsv) :
    ∀ acc, (∃ t ∈ l, confoundsMatch t.name = none) →
      fdFold l acc = Except.error PyError.valueError := by
  induction l with
  | nil =>
    intro acc h
    simp at h
  | cons t rest ih =>
    intro acc h
    cases hm : confoundsMatch t.name with
    | none => simp [fdFold, hm]
    | some g =>
      obtain ⟨t0, ht0, hbad⟩ := h
      rcases List.mem_cons.mp ht0 with h0 | h0
      · subst h0
        rw [hm] at hbad
        exact absurd hbad (by simp)
      · simp only [fdFold, hm]
        exact ih _ ⟨t0, h0, hbad⟩

lemma fdFold_error_shape (l : List Tsv) :
    ∀ acc e, fdFold l acc = Except.error e → e = PyError.valueError := by
  induction l with
  | nil =>
    intro acc e h
    simp [fdFold] at h
  | cons t rest ih =>
    intro acc e h
    cases hm : confoundsMatch t.name with
    | none =>
      simp only [fdFold, hm, Except.error.injEq] at h
      exact h.symm
    | some g =>
      simp only [fdFold, hm] at h
      exact ih _ _ h

lemma get_fd_error_shape (d : MotionSubjDir) (e : PyError)
    (h : get_framewise_displacement d = Except.error e) : e = PyError.valueError := by
  unfold get_framewise_displacement at h
  cases hf : fdFold (d.funcTsvs.filter (fun t => globMatch "*.tsv*" t.name)) [] with
  | error e2 =>
    rw [hf] at h
    simp only [Except.error.injEq] at h
    exact h ▸ fdFold_error_shape _ _ _ hf
  | ok cells =>
    rw [hf] at h
    simp at h

lemma get_fd_error_of_bad (d : MotionSubjDir)
    (h : ∃ t ∈ d.funcTsvs.filter (fun t => globMatch "*.tsv*" t.name),
         confoundsMatch t.name = none) :
    get_framewise_displacement d = Except.error PyError.valueError := by
  unfold get_framewise_displacement
  rw [fdFold_error_of_bad _ _ h]

lemma exceptMapList_error_of_mem (f : α → Except PyError β)
    (hf : ∀ x e, f x = Except.error e → e = PyError.valueError) :
    ∀ l : List α, (∃ d ∈ l, ∃ e, f d = Except.error e) →
      exceptMapList f l = Except.error PyError.valueError := by
  intro l
  induction l with
  | nil =>
    intro h
    simp at h
  | cons a rest ih =>
    intro h
    cases hfa : f a with
    | error e =>
      have he := hf a e hfa
      subst he
      simp [exceptMapList, hfa]
    | ok b =>
      obtain ⟨d, hd, e, hde⟩ := h
      rcases List.mem_cons.mp hd with h0 | h0
      · subst h0
        rw [hfa] at hde
        exact absurd hde (by simp)
      · simp only [exceptMapList, hfa]
        rw [ih ⟨d, h0, e, hde⟩]

/-- C8: if any `*.tsv*` file name under a subject's `func` directory fails
the confounds pattern, the whole motion run raises (`ValueError`) and no
motion output table is written — the run result is the error, with no
writes. -/
theorem c8_malformed_confound_name_fatal (tree : List MotionSubjDir) (order : List String)
    (h : ∃ d ∈ tree.filter (fun d => globMatch "sub*" d.name),
         ∃ t ∈ d.funcTsvs.filter (fun t => globMatch "*.tsv*" t.name),
         confoundsMatch t.name = none) :
    exclude_by_motion tree order = Except.error PyError.valueError := by
  obtain ⟨d, hd, hbad⟩ := h
  unfold exclude_by_motion
  rw [exceptMapList_error_of_mem get_framewise_displacement
    (fun x e hx => get_fd_error_shape x e hx) _
    ⟨d, hd, PyError.valueError, get_fd_error_of_bad d hbad⟩]

/-- A subject directory containing a malformed confound file name. -/
def c8Tree : List MotionSubjDir :=
  [⟨"sub-Z", [⟨"bad_name.tsv", [some 1, some 2]⟩]⟩]

/-- Witness for `c8_malformed_confound_name_fatal` at a concrete tree. -/
theorem c8_malformed_confound_name_fatal_witness :
    (∃ d ∈ c8Tree.filter (fun d => globMatch "sub*" d.name),
      ∃ t ∈ d.funcTsvs.filter (fun t => globMatch "*.tsv*" t.name),
      confoundsMatch t.name = none) ∧
    exclude_by_motion c8Tree ["t"] = Except.error PyError.valueError :=
  ⟨by decide, c8_malformed_confound_name_fatal c8Tree ["t"] (by decide)⟩

/-- A tree whose subject `sub-A` has no `anat` folder at all (and a
populated `fmap`), next to a fully populated `sub-B`. -/
def c9Tree : List SubjNode :=
  [⟨"sub-A", [⟨"fmap", ["x_fMRI_epi.nii.gz"]⟩]⟩,
   ⟨"sub-B", [⟨"anat", ["y_T1w.nii.gz"]⟩, ⟨"fmap", ["z_fMRI_epi.nii.gz"]⟩]⟩]

/-- C9 (counterexample): `sub-A`'s anatomical folder is entirely absent, so
its `t1_files` cell is missing (NaN), which pandas compares unequal to 0 —
the exclude set is empty and `sub-A` is (wrongly, per the claim) included. -/
theorem c9_counterexample :
    (count_files c9Tree "A").t1_files = none ∧
    ((bids_rows c9Tree).map (fun r => r.participant_id)).contains "sub-A" = true ∧
    bidsExclude c9Tree = [] ∧
    count_all_files c9Tree = Except.ok ⟨bids_rows c9Tree, [], bids_rows c9Tree⟩ :=
  ⟨by decide, by decide, by decide, rfl⟩

lemma pdEqZero_eq_true (o : Option Nat) : pdEqZero o = true ↔ o = some 0 := by
  cases o with
  | none => simp [pdEqZero]
  | some n => simp [pdEqZero]

/-- C9 (amended): in the presence breakdown a subject is excluded iff one
of its two mandatory count cells is an explicit zero (folder present but
empty of matching files); a subject whose anatomical or field-map folder is
entirely absent contributes a missing cell, which is never compared equal
to zero, so such a subject is NOT excluded.  The included rows are exactly
the complement (by participant id) of the excluded rows within the full
table. -/
theorem c9_presence_partition_amended (tree : List SubjNode) (res : BidsCountResult)
    (hok : count_all_files tree = Except.ok res)
    (hnodup : (res.all.map (fun r => r.participant_id)).Nodup)
    (r : CountRow) (hr : r ∈ res.all) :
    (r ∈ res.exclude ↔ (r.t1_files = some 0 ∨ r.fmap_files = some 0)) ∧
    (r ∈ res.included ↔ ¬ r ∈ res.exclude) := by
  have hshape : res = ⟨bids_rows tree, bidsExclude tree, bidsIncluded tree⟩ := by
    simp only [count_all_files] at hok
    split at hok
    · exact absurd hok (by simp)
    · injection hok with h
      exact h.symm
  subst hshape
  simp only at hr hnodup ⊢
  constructor
  · unfold bidsExclude
    rw [List.mem_filter]
    simp [hr, pdEqZero_eq_true]
  · unfold bidsIncluded
    rw [List.mem_filter]
    simp only [hr, true_and, Bool.not_eq_true']
    constructor
    · intro hcont hrex
      have hmem : r.participant_id ∈ (bidsExclude tree).map (fun e => e.participant_id) :=
        List.mem_map_of_mem _ hrex
      have hc2 : ((bidsExclude tree).map
          (fun e => e.participant_id)).contains r.participant_id = true :=
        List.elem_iff.mpr hmem
      rw [hc2] at hcont
      exact absurd hcont (by decide)
    · intro hnex
      apply Bool.eq_false_iff.mpr
      intro hc2
      obtain ⟨e, he, hpe⟩ := List.mem_map.mp (List.elem_iff.mp hc2)
      have heall : e ∈ bids_rows tree := List.filter_subset' _ he
      have he_r : e = r := List.inj_on_of_nodup_map hnodup heall hr hpe
      subst he_r
      exact hnex he

/-- Witness for `c9_presence_partition_amended` at the concrete C9 tree. -/
theorem c9_presence_partition_amended_witness :
    (count_all_files c9Tree = Except.ok ⟨bids_rows c9Tree, [], bids_rows c9Tree⟩ ∧
     ((bids_rows c9Tree).map (fun r => r.participant_id)).Nodup ∧
     count_files c9Tree "A" ∈ bids_rows c9Tree) ∧
    ((count_files c9Tree "A"
        ∈ (⟨bids_rows c9Tree, [], bids_rows c9Tree⟩ : BidsCountResult).exclude ↔
      ((count_files c9Tree "A").t1_files = some 0 ∨
        (count_files c9Tree "A").fmap_files = some 0)) ∧
     (count_files c9Tree "A"
        ∈ (⟨bids_rows c9Tree, [], bids_rows c9Tree⟩ : BidsCountResult).included ↔
      ¬ count_files c9Tree "A"
        ∈ (⟨bids_rows c9Tree, [], bids_rows c9Tree⟩ : BidsCountResult).exclude)) :=
  ⟨⟨rfl, by decide, by decide⟩,
   c9_presence_partition_amended c9Tree ⟨bids_rows c9Tree, [], bids_rows c9Tree⟩ rfl
     (by decide) (count_files c9Tree "A") (by decide)⟩

/-- A one-subject fmriprep tree with two well-formed confound files (tasks
`rest` and `movie`). -/
def c10Tree : List MotionSubjDir :=
  [⟨"sub-A",
    [⟨"sub-A_task-rest_desc-confounds_timeseries.tsv", [none, some 1]⟩,
     ⟨"sub-A_task-movie_desc-confounds_timeseries.tsv", [none, some 2]⟩]⟩]

/-- The displacement table `c10Tree` produces. -/
def c10Rows : List MotionRow := [⟨"sub-A", [("rest", some 1), ("movie", some 2)]⟩]

/-- C10 (counterexample): on the unchanged tree `c10Tree`, the two
column-iteration orders `["rest", "movie"]` and `["movie", "rest"]` — both
valid orders of `set(columns) - {"id"}`, the choice falling to the
interpreter's run-to-run hash randomization, not to the file tree — produce
byte-distinct motion output CSVs. -/
theorem c10_counterexample :
    exceptMapList get_framewise_displacement
        (c10Tree.filter (fun d => globMatch "sub*" d.name)) = Except.ok c10Rows ∧
    List.Perm ["rest", "movie"] (colsOf c10Rows) ∧
    List.Perm ["movie", "rest"] (colsOf c10Rows) ∧
    exclude_by_motion c10Tree ["rest", "movie"]
      = Except.ok [("motion-outliers_all.csv",
          "id,rest_is_outlier,movie_is_outlier\nsub-A,False,False\n")] ∧
    exclude_by_motion c10Tree ["movie", "rest"]
      = Except.ok [("motion-outliers_all.csv",
          "id,movie_is_outlier,rest_is_outlier\nsub-A,False,False\n")] ∧
    (("id,rest_is_outlier,movie_is_outlier\nsub-A,False,False\n" : String)
        == "id,movie_is_outlier,rest_is_outlier\nsub-A,False,False\n") = false := by
  have h0 : exceptMapList get_framewise_displacement
      (c10Tree.filter (fun d => globMatch "sub*" d.name))
      = Except.ok [⟨"sub-A", [("rest", pdMean [1]), ("movie", pdMean [2])]⟩] := rfl
  have hm1 : pdMean [(1 : ℚ)] = some 1 := by norm_num [pdMean]
  have hm2 : pdMean [(2 : ℚ)] = some 2 := by norm_num [pdMean]
  rw [hm1, hm2] at h0
  have h0c : exceptMapList get_framewise_displacement
      (c10Tree.filter (fun d => globMatch "sub*" d.name)) = Except.ok c10Rows := h0
  have hu1 : upper_lims c10Rows "rest" = some 3 := by
    have h : c10Rows.filterMap (fun r => cellOf r "rest") = [1] := by decide
    unfold upper_lims group_fds group_sds columnMean
    rw [h, hm1]
    norm_num
  have hu2 : upper_lims c10Rows "movie" = some 6 := by
    have h : c10Rows.filterMap (fun r => cellOf r "movie") = [2] := by decide
    unfold upper_lims group_fds group_sds columnMean
    rw [h, hm2]
    norm_num
  have htbl1 : motionFlagTable c10Rows ["rest", "movie"]
      = [("sub-A", [("rest_is_outlier", false), ("movie_is_outlier", false)])] := by
    simp only [motionFlagTable, rowFlagEntries, List.map_cons, List.map_nil]
    rw [hu1, hu2]
    simp only [c10Rows, List.map_cons, List.map_nil]
    norm_num [cellOf, outlierFlag]
    decide
  have htbl2 : motionFlagTable c10Rows ["movie", "rest"]
      = [("sub-A", [("movie_is_outlier", false), ("rest_is_outlier", false)])] := by
    simp only [motionFlagTable, rowFlagEntries, List.map_cons, List.map_nil]
    rw [hu1, hu2]
    simp only [c10Rows, List.map_cons, List.map_nil]
    norm_num [cellOf, outlierFlag]
    decide
  refine ⟨h0c, List.Perm.refl _, List.Perm.swap "rest" "movie" [], ?_, ?_, by decide⟩
  · unfold exclude_by_motion
    rw [h0c]
    change Except.ok [("motion-outliers_all.csv",
      motionCsv ["rest", "movie"] (motionFlagTable c10Rows ["rest", "movie"]))] = _
    rw [htbl1]
    rfl
  · unfold exclude_by_motion
    rw [h0c]
    change Except.ok [("motion-outliers_all.csv",
      motionCsv ["movie", "rest"] (motionFlagTable c10Rows ["movie", "rest"]))] = _
    rw [htbl2]
    rfl

/-- C10 (amended): the pipeline's outputs are a function of the modelled
file-tree state and of the interpreter's set-iteration order; permuting
that order permutes only the motion table's columns: the multiset of its
(column, subject, flag) cells is invariant.  Byte-identity of the motion
CSV across runs is therefore guaranteed only up to column order, not
absolutely. -/
theorem c10_motion_column_order_amended (rows : List MotionRow) (ord1 ord2 : List String)
    (h : List.Perm ord1 ord2) :
    List.Perm (motionCells rows ord1) (motionCells rows ord2) := by
  unfold motionCells
  exact h.flatMap_right _

/-- Witness for `c10_motion_column_order_amended` at the concrete orders. -/
theorem c10_motion_column_order_amended_witness :
    List.Perm ["movie", "rest"] ["rest", "movie"] ∧
    List.Perm (motionCells c10Rows ["movie", "rest"]) (motionCells c10Rows ["rest", "movie"]) :=
  ⟨List.Perm.swap "rest" "movie" [],
   c10_motion_column_order_amended c10Rows ["movie", "rest"] ["rest", "movie"]
     (List.Perm.swap "rest" "movie" [])⟩
